import Mathlib

/-!
Shallow embedding of the Product Catalog service (src/main.py) and of its
tool proxy (src/mcp_server.py), with theorems checking the specification's
claims against the embedded code.

Conventions of the embedding:
* The relational store is a `Store`: the `products` table rows in insertion
  order together with the AUTO_INCREMENT counter of the integer primary key.
  A default table scan yields the rows in that order.
* `price` (a Python float holding a decimal amount) is embedded as `Rat`.
* The two `TIMESTAMP` columns of `ProductModel` are declared in the source
  with no default and no update hook, and no handler ever assigns them, so
  they are `Option Nat` values that the embedded handlers carry around
  untouched (`none` on freshly inserted rows).
* Request validation that the framework performs from the declarative field
  constraints (`ProductCreate` / `ProductUpdate` / query-parameter bounds)
  runs before the handler body, so each embedded handler checks the
  constraints first and returns a 422 error without touching the store.
* Fallible handlers return `Except HTTPError`; mutating handlers return the
  (possibly unchanged) store alongside the response.
-/

/-- A row of the `products` table (`ProductModel`, src/main.py lines 29-39). -/
structure ProductRow where
  id : Nat
  name : String
  price : Rat
  description : Option String
  category : String
  in_stock : Bool
  created_at : Option Nat
  updated_at : Option Nat
deriving Repr, DecidableEq

/-- The persistent store: rows in insertion order plus the AUTO_INCREMENT
counter (identifiers are never reused after deletion). -/
structure Store where
  rows : List ProductRow
  nextId : Nat
deriving Repr, DecidableEq

/-- The `Product` response model (src/main.py lines 43-53). Note that it has
no timestamp fields: responses never carry `created_at` / `updated_at`. -/
structure Product where
  id : Nat
  name : String
  price : Rat
  description : Option String
  category : String
  in_stock : Bool
deriving Repr, DecidableEq

/-- Serialization of a stored row through the `Product` response model. -/
def toResponse (r : ProductRow) : Product :=
  { id := r.id, name := r.name, price := r.price, description := r.description,
    category := r.category, in_stock := r.in_stock }

/-- The `ProductCreate` request model (src/main.py lines 56-62), with the
declared defaults already applied for omitted fields. -/
structure ProductCreate where
  name : String
  price : Rat
  description : Option String := none
  category : String := "General"
  in_stock : Bool := true
deriving Repr, DecidableEq

/-- The declarative field constraints of `ProductCreate`:
`name` 1..100 chars, `price > 0`, `description` at most 500 chars,
`category` at most 50 chars. -/
def validCreate (p : ProductCreate) : Bool :=
  decide (1 ≤ p.name.length) && decide (p.name.length ≤ 100) &&
  decide (0 < p.price) &&
  (match p.description with
   | none => true
   | some d => decide (d.length ≤ 500)) &&
  decide (p.category.length ≤ 50)

/-- The `ProductUpdate` sparse-patch model (src/main.py lines 65-71): every
field independently optional, `none` meaning absent from the request. -/
structure ProductUpdate where
  name : Option String := none
  price : Option Rat := none
  description : Option String := none
  category : Option String := none
  in_stock : Option Bool := none
deriving Repr, DecidableEq

/-- The declarative field constraints of `ProductUpdate`: each constraint of
`validCreate` applied only when the corresponding field is present. -/
def validUpdate (p : ProductUpdate) : Bool :=
  (match p.name with
   | none => true
   | some n => decide (1 ≤ n.length) && decide (n.length ≤ 100)) &&
  (match p.price with
   | none => true
   | some pr => decide (0 < pr)) &&
  (match p.description with
   | none => true
   | some d => decide (d.length ≤ 500)) &&
  (match p.category with
   | none => true
   | some c => decide (c.length ≤ 50))

/-- The patch with no field present (an empty request body). -/
def emptyPatch : ProductUpdate := {}

/-- An error response: HTTP status code and detail message. -/
structure HTTPError where
  status_code : Nat
  detail : String
deriving Repr, DecidableEq

/-- Embedding of `db.query(ProductModel).filter(ProductModel.id == product_id).first()`. -/
def findRow (s : Store) (pid : Nat) : Option ProductRow :=
  s.rows.find? (fun r => r.id == pid)

/-- Detail message used by every 404 raised in src/main.py. -/
def notFoundDetail (pid : Nat) : String := s!"Product {pid} not found"

/-- Detail of a 422 raised by the framework validation step. -/
def validationDetail : String := "validation error"

/-- Handler `get_product` (src/main.py lines 124-135). -/
def get_product (s : Store) (pid : Nat) : Except HTTPError Product :=
  match findRow s pid with
  | none => .error ⟨404, notFoundDetail pid⟩
  | some r => .ok (toResponse r)

/-- Handler `create_product` (src/main.py lines 138-158): validation first
(framework), then insert a row built from the payload fields only — the
timestamp columns are not assigned — and return the refreshed row. -/
def create_product (s : Store) (p : ProductCreate) :
    Store × Except HTTPError Product :=
  if validCreate p then
    let row : ProductRow :=
      { id := s.nextId, name := p.name, price := p.price,
        description := p.description, category := p.category,
        in_stock := p.in_stock, created_at := none, updated_at := none }
    ({ rows := s.rows ++ [row], nextId := s.nextId + 1 }, .ok (toResponse row))
  else
    (s, .error ⟨422, validationDetail⟩)

/-- The `setattr` loop of `update_product` over
`product_update.model_dump(exclude_unset=True)`: overwrite exactly the
present fields; `id`, `created_at` and `updated_at` are never assigned. -/
def applyPatch (r : ProductRow) (p : ProductUpdate) : ProductRow :=
  { r with
    name := p.name.getD r.name
    price := p.price.getD r.price
    description := match p.description with
      | none => r.description
      | some d => some d
    category := p.category.getD r.category
    in_stock := p.in_stock.getD r.in_stock }

/-- Handler `update_product` (src/main.py lines 161-182): framework
validation of the patch, then lookup (404 when absent), then the `setattr`
loop and commit. -/
def update_product (s : Store) (pid : Nat) (p : ProductUpdate) :
    Store × Except HTTPError Product :=
  if validUpdate p then
    match findRow s pid with
    | none => (s, .error ⟨404, notFoundDetail pid⟩)
    | some r =>
      let r2 := applyPatch r p
      ({ s with rows := s.rows.map fun row => if row.id == pid then r2 else row },
        .ok (toResponse r2))
  else
    (s, .error ⟨422, validationDetail⟩)

/-- Handler `delete_product` (src/main.py lines 185-199): lookup (404 when
absent), then remove the row; the AUTO_INCREMENT counter is not lowered. -/
def delete_product (s : Store) (pid : Nat) :
    Store × Except HTTPError Unit :=
  match findRow s pid with
  | none => (s, .error ⟨404, notFoundDetail pid⟩)
  | some _ => ({ s with rows := s.rows.filter fun r => r.id != pid }, .ok ())

/-- Handler `list_products` (src/main.py lines 102-121): start from the full
table, add the category filter only when `category` is truthy (present and
non-empty), add the stock filter whenever `in_stock` is present, then
offset/limit. -/
def list_products (s : Store) (category : Option String) (in_stock : Option Bool)
    (skip : Nat) (limit : Nat) : List Product :=
  let q0 : List ProductRow := s.rows
  let q1 : List ProductRow := match category with
    | some c => if c == "" then q0 else q0.filter (fun r => r.category == c)
    | none => q0
  let q2 : List ProductRow := match in_stock with
    | some b => q1.filter (fun r => r.in_stock == b)
    | none => q1
  ((q2.drop skip).take limit).map toResponse

/-- The combined record predicate that `list_products` effectively filters
by: category matches when the filter is present and non-empty, stock status
matches when that filter is present. -/
def matchesFilters (category : Option String) (in_stock : Option Bool)
    (r : ProductRow) : Bool :=
  (match category with
   | some c => if c == "" then true else r.category == c
   | none => true) &&
  (match in_stock with
   | some b => r.in_stock == b
   | none => true)

/-- Outcome of one outbound call made by a proxy action: a decoded success
body, a non-2xx status (what `raise_for_status` turns into a status error,
carrying the service's detail message), or any other transport fault
(timeout, connection failure). -/
inductive HttpOutcome (α : Type) where
  | success (body : α)
  | statusError (code : Nat) (msg : String)
  | transportError (msg : String)
deriving Repr, DecidableEq

/-- Value returned by a proxy action to its caller: either the relayed
payload or a structured error object. Raising is not in the codomain: every
transport-library fault branch of the source is caught and mapped here. -/
inductive McpResult (α : Type) where
  | payload (v : α)
  | errorPayload (msg : String)
deriving Repr, DecidableEq

/-- Proxy action `get_product` (src/mcp_server.py lines 40-58): relay the
body on success, return the structured not-found payload on a 404 status,
and a structured error payload on every other status or transport fault. -/
def mcp_get_product (pid : Nat) (outcome : HttpOutcome Product) :
    McpResult Product :=
  match outcome with
  | .success body => .payload body
  | .statusError code msg =>
    if code == 404 then .errorPayload s!"Product {pid} not found"
    else .errorPayload s!"Failed to fetch product: {msg}"
  | .transportError msg => .errorPayload s!"Connection error: {msg}"

/-- The outcome the Catalog Service produces for the proxy's outbound
`GET /products/id` call, assuming the transport itself works. -/
def catalogGetOutcome (s : Store) (pid : Nat) : HttpOutcome Product :=
  match get_product s pid with
  | .ok p => .success p
  | .error e => .statusError e.status_code e.detail

/-- A named action or operation together with its logical parameter names. -/
structure ToolSig where
  name : String
  params : List String
deriving Repr, DecidableEq

/-- The seven Catalog Service operations (handler signatures of src/main.py,
in source order) with their logical request parameters; for Create and
Update the parameters of the request-body model are listed. -/
def catalogOps : List ToolSig :=
  [ ⟨"list_products", ["category", "in_stock", "skip", "limit"]⟩,
    ⟨"get_product", ["product_id"]⟩,
    ⟨"create_product", ["name", "price", "description", "category", "in_stock"]⟩,
    ⟨"update_product", ["product_id", "name", "price", "description", "category", "in_stock"]⟩,
    ⟨"delete_product", ["product_id"]⟩,
    ⟨"list_categories", []⟩,
    ⟨"health_check", []⟩ ]

/-- The actions registered on the tool proxy (src/mcp_server.py, in source
order) with their parameter names. There are six: no health action exists,
and `list_products` takes no `skip` parameter. -/
def mcpTools : List ToolSig :=
  [ ⟨"list_products", ["category", "in_stock", "limit"]⟩,
    ⟨"get_product", ["product_id"]⟩,
    ⟨"create_product", ["name", "price", "description", "category", "in_stock"]⟩,
    ⟨"update_product", ["product_id", "name", "price", "description", "category", "in_stock"]⟩,
    ⟨"delete_product", ["product_id"]⟩,
    ⟨"get_categories", []⟩ ]

/-- Statement of claim C3, following the spec's words: the proxy has one
named action per Catalog operation taking the same logical parameters
(actions are matched to operations by parameter list, one-to-one, since the
spec lets the action names differ). -/
def specProxyCoversAllOps : Prop :=
  ∃ f : Fin catalogOps.length → Fin mcpTools.length,
    Function.Injective f ∧
      ∀ i, (catalogOps.get i).params = (mcpTools.get (f i)).params

/-- Sample rows (ids ascending, mixed categories and stock states) for the
concrete witnesses below. -/
def row1 : ProductRow :=
  ⟨1, "Widget", 10, none, "General", true, some 3, some 5⟩

def row2 : ProductRow :=
  ⟨2, "Laptop", 1200, some "fast", "Electronics", true, none, none⟩

def row3 : ProductRow :=
  ⟨3, "Mouse", 25, none, "Electronics", false, none, none⟩

def row4 : ProductRow :=
  ⟨4, "Desk", 300, none, "Furniture", true, none, none⟩

def row5 : ProductRow :=
  ⟨5, "Lamp", 45, none, "Furniture", false, none, none⟩

/-- A store holding the five sample rows. -/
def store5 : Store := ⟨[row1, row2, row3, row4, row5], 6⟩

/-- Filtering a row list by a constantly-true predicate returns it whole. -/
theorem filter_const_true (l : List ProductRow) (p : ProductRow → Bool)
    (hp : ∀ r, p r = true) : l.filter p = l :=
  List.filter_eq_self.mpr (fun r _ => hp r)

/-- Filtering by the always-true predicate is the identity. -/
theorem filter_true_row (l : List ProductRow) :
    l.filter (fun _ => true) = l :=
  filter_const_true l _ (fun _ => rfl)

/-- The two sequential query filters of `list_products` collapse into one
filter by `matchesFilters`, followed by offset/limit and serialization. -/
theorem list_products_eq_paginate (s : Store) (category : Option String)
    (in_stock : Option Bool) (skip limit : Nat) :
    list_products s category in_stock skip limit =
      (((s.rows.filter (matchesFilters category in_stock)).drop skip).take
        limit).map toResponse := by
  unfold list_products matchesFilters
  cases category with
  | none =>
    cases in_stock with
    | none => simp [filter_true_row]
    | some b => simp
  | some c =>
    by_cases hc : c == ""
    · cases in_stock with
      | none => simp [hc, filter_true_row]
      | some b => simp [hc]
    · cases in_stock with
      | none => simp [hc]
      | some b => simp [hc, Bool.and_comm]

/-- C2: for every store whose scan order is strictly ascending by identifier
(the insertion-order invariant of the AUTO_INCREMENT key) and every List
request, the returned page is the filtered record set with the first `skip`
elements dropped and at most `limit` kept, serialized in that order, and the
page itself is strictly ascending by identifier — a stable, deterministic
order. -/
theorem C2_list_page (s : Store) (category : Option String)
    (in_stock : Option Bool) (skip limit : Nat)
    (hsorted : s.rows.Pairwise (fun a b => a.id < b.id)) :
    list_products s category in_stock skip limit =
      (((s.rows.filter (matchesFilters category in_stock)).drop skip).take
        limit).map toResponse
    ∧ (list_products s category in_stock skip limit).Pairwise
        (fun a b => a.id < b.id) := by
  refine ⟨list_products_eq_paginate s category in_stock skip limit, ?_⟩
  rw [list_products_eq_paginate s category in_stock skip limit]
  refine List.pairwise_map.mpr ?_
  have h1 := (hsorted.filter (matchesFilters category in_stock)).sublist
    (List.drop_sublist skip _)
  have h2 := h1.sublist (List.take_sublist limit _)
  exact h2.imp (fun h => h)

/-- Closed instance of `C2_list_page` on the five-row sample store. -/
theorem C2_list_page_witness :
    store5.rows.Pairwise (fun a b => a.id < b.id)
    ∧ (list_products store5 (some "Electronics") none 0 100 =
        (((store5.rows.filter (matchesFilters (some "Electronics") none)).drop
          0).take 100).map toResponse
      ∧ (list_products store5 (some "Electronics") none 0 100).Pairwise
          (fun a b => a.id < b.id)) :=
  ⟨by decide, C2_list_page store5 (some "Electronics") none 0 100 (by decide)⟩

/-- C7: List never signals an error — it is a total function into record
sequences; when exactly five records match the filters, skip=0 and limit=2
return exactly two records, and any skip at or past the number of matching
records returns the empty sequence. -/
theorem C7_pagination (s : Store) (category : Option String)
    (in_stock : Option Bool) (skip limit : Nat) :
    ((s.rows.filter (matchesFilters category in_stock)).length = 5 →
      (list_products s category in_stock 0 2).length = 2)
    ∧ ((s.rows.filter (matchesFilters category in_stock)).length ≤ skip →
      list_products s category in_stock skip limit = []) := by
  constructor
  · intro h5
    rw [list_products_eq_paginate]
    simp [h5]
  · intro hle
    rw [list_products_eq_paginate]
    rw [List.drop_eq_nil_of_le hle]
    simp

/-- Closed instance of `C7_pagination`: the sample store has five records
matching the empty filter; page (0,2) has two records and page (5,100) is
empty. -/
theorem C7_pagination_witness :
    ((store5.rows.filter (matchesFilters none none)).length = 5
      ∧ (list_products store5 none none 0 2).length = 2)
    ∧ ((store5.rows.filter (matchesFilters none none)).length ≤ 5
      ∧ list_products store5 none none 5 100 = []) :=
  ⟨⟨by decide, (C7_pagination store5 none none 5 100).1 (by decide)⟩,
    ⟨by decide, (C7_pagination store5 none none 5 100).2 (by decide)⟩⟩

/-- C10: the two optional List filters are tested differently. A category
filter that is the empty string behaves exactly like an absent category
filter; a non-empty category filter genuinely restricts the page to that
category; and a present stock filter — `false` included — genuinely
restricts the page to records with that stock status. -/
theorem C10_filter_asymmetry (s : Store) (c : String) (b : Bool)
    (category : Option String) (in_stock : Option Bool) (skip limit : Nat) :
    (list_products s (some "") in_stock skip limit =
      list_products s none in_stock skip limit)
    ∧ (c ≠ "" →
      (list_products s (some c) in_stock skip limit).all
        (fun p => p.category == c) = true)
    ∧ (list_products s category (some b) skip limit).all
        (fun p => p.in_stock == b) = true := by
  refine ⟨?_, ?_, ?_⟩
  · unfold list_products
    simp
  · intro hc
    rw [list_products_eq_paginate]
    rw [List.all_eq_true]
    intro p hp
    rw [List.mem_map] at hp
    obtain ⟨r, hr, rfl⟩ := hp
    have hr2 := List.mem_of_mem_drop (List.mem_of_mem_take hr)
    rw [List.mem_filter] at hr2
    have hm := hr2.2
    have hcc : (c == "") = false := by
      rw [beq_eq_false_iff_ne]
      exact hc
    simp only [matchesFilters, hcc, Bool.false_eq_true, if_false,
      Bool.and_eq_true] at hm
    simpa [toResponse] using hm.1
  · rw [list_products_eq_paginate]
    rw [List.all_eq_true]
    intro p hp
    rw [List.mem_map] at hp
    obtain ⟨r, hr, rfl⟩ := hp
    have hr2 := List.mem_of_mem_drop (List.mem_of_mem_take hr)
    rw [List.mem_filter] at hr2
    have hm := hr2.2
    simp only [matchesFilters, Bool.and_eq_true] at hm
    simpa [toResponse] using hm.2

/-- Closed instance of `C10_filter_asymmetry` on the sample store. -/
theorem C10_filter_asymmetry_witness :
    (list_products store5 (some "") (some false) 0 10 =
      list_products store5 none (some false) 0 10)
    ∧ ("Electronics" ≠ ""
      ∧ (list_products store5 (some "Electronics") (some false) 0 10).all
          (fun p => p.category == "Electronics") = true)
    ∧ (list_products store5 none (some false) 0 10).all
        (fun p => p.in_stock == false) = true :=
  ⟨(C10_filter_asymmetry store5 "Electronics" false none (some false) 0 10).1,
    ⟨by decide,
      (C10_filter_asymmetry store5 "Electronics" false none (some false) 0
        10).2.1 (by decide)⟩,
    (C10_filter_asymmetry store5 "Electronics" false none (some false) 0
      10).2.2⟩

/-- C8: for every identifier with no row in the store (never created or
already deleted), Get and Delete each signal a 404 whose detail message
names the missing identifier, and Delete leaves the store unchanged (Get
never mutates: its result carries no store at all). -/
theorem C8_not_found (s : Store) (pid : Nat) (h : findRow s pid = none) :
    get_product s pid = .error ⟨404, notFoundDetail pid⟩
    ∧ delete_product s pid = (s, .error ⟨404, notFoundDetail pid⟩)
    ∧ notFoundDetail pid = "Product " ++ toString pid ++ " not found" := by
  refine ⟨?_, ?_, ?_⟩
  · unfold get_product
    rw [h]
  · unfold delete_product
    rw [h]
  · rfl

/-- Closed instance of `C8_not_found`: identifier 9 is absent from the
sample store. -/
theorem C8_not_found_witness :
    findRow store5 9 = none
    ∧ (get_product store5 9 = .error ⟨404, notFoundDetail 9⟩
      ∧ delete_product store5 9 = (store5, .error ⟨404, notFoundDetail 9⟩)
      ∧ notFoundDetail 9 = "Product " ++ toString 9 ++ " not found") :=
  ⟨by decide, C8_not_found store5 9 (by decide)⟩

/-- C9: for every identifier with no row in the store, the proxy's get
action — fed the 404 outcome the Catalog Service produces — returns the
structured payload with message `Product <id> not found`; the action's
codomain is `McpResult`, whose every fault branch is a structured error
payload, so no transport exception reaches the caller. -/
theorem C9_proxy_get_not_found (s : Store) (pid : Nat)
    (h : findRow s pid = none) :
    mcp_get_product pid (catalogGetOutcome s pid) =
      .errorPayload s!"Product {pid} not found" := by
  unfold catalogGetOutcome get_product
  rw [h]
  rfl

/-- Closed instance of `C9_proxy_get_not_found` at identifier 9 on the
sample store. -/
theorem C9_proxy_get_not_found_witness :
    findRow store5 9 = none
    ∧ mcp_get_product 9 (catalogGetOutcome store5 9) =
        .errorPayload s!"Product 9 not found" :=
  ⟨by decide, C9_proxy_get_not_found store5 9 (by decide)⟩

/-- C5: for every existing product and every patch with at least one present
field out of range (name empty or over 100 chars, price not positive,
description over 500 chars, category over 50 chars), Update returns the 422
validation error and the whole store — hence the stored record — is left
exactly as it was: no other valid field of the same patch is applied. -/
theorem C5_invalid_patch_rejected (s : Store) (pid : Nat) (r : ProductRow)
    (_hfind : findRow s pid = some r) (p : ProductUpdate)
    (hbad :
      (∃ n, p.name = some n ∧ (n.length < 1 ∨ 100 < n.length))
      ∨ (∃ pr, p.price = some pr ∧ pr ≤ 0)
      ∨ (∃ d, p.description = some d ∧ 500 < d.length)
      ∨ (∃ c, p.category = some c ∧ 50 < c.length)) :
    update_product s pid p = (s, .error ⟨422, validationDetail⟩) := by
  have hv : validUpdate p = false := by
    cases hvp : validUpdate p with
    | false => rfl
    | true =>
      exfalso
      unfold validUpdate at hvp
      simp only [Bool.and_eq_true] at hvp
      obtain ⟨⟨⟨hname, hprice⟩, hdesc⟩, hcat⟩ := hvp
      rcases hbad with ⟨n, hn, hlen⟩ | ⟨pr, hpr, hle⟩ | ⟨d, hd, hlen⟩ |
        ⟨c, hc, hlen⟩
      · simp only [hn, Bool.and_eq_true, decide_eq_true_eq] at hname
        omega
      · simp only [hpr, decide_eq_true_eq] at hprice
        exact absurd hprice (not_lt.mpr hle)
      · simp only [hd, decide_eq_true_eq] at hdesc
        omega
      · simp only [hc, decide_eq_true_eq] at hcat
        omega
  simp [update_product, hv]

/-- Closed instance of `C5_invalid_patch_rejected`: the patch setting only
price to -5 on existing product 1 is rejected and the sample store is
returned untouched. -/
theorem C5_invalid_patch_rejected_witness :
    findRow store5 1 = some row1
    ∧ (∃ pr, (⟨none, some (-5), none, none, none⟩ : ProductUpdate).price =
        some pr ∧ pr ≤ 0)
    ∧ update_product store5 1 ⟨none, some (-5), none, none, none⟩ =
        (store5, .error ⟨422, validationDetail⟩) :=
  ⟨by decide, ⟨-5, rfl, by norm_num⟩,
    C5_invalid_patch_rejected store5 1 row1 (by decide)
      ⟨none, some (-5), none, none, none⟩
      (Or.inr (Or.inl ⟨-5, rfl, by norm_num⟩))⟩

/-- C6: Create with price ≤ 0, an empty (or oversize) name, or an oversize
text field returns the 422 validation error with the store unchanged
(nothing persisted); for every payload passing validation, Create succeeds
and the returned record's price equals the input price and is strictly
positive. -/
theorem C6_create_validation (s : Store) (p : ProductCreate) :
    ((p.price ≤ 0 ∨ p.name.length = 0 ∨ 100 < p.name.length
        ∨ (∃ d, p.description = some d ∧ 500 < d.length)
        ∨ 50 < p.category.length) →
      create_product s p = (s, .error ⟨422, validationDetail⟩))
    ∧ (validCreate p = true →
      ∃ resp, (create_product s p).2 = .ok resp
        ∧ resp.price = p.price ∧ 0 < resp.price) := by
  constructor
  · intro hbad
    have hv : validCreate p = false := by
      cases hvp : validCreate p with
      | false => rfl
      | true =>
        exfalso
        unfold validCreate at hvp
        simp only [Bool.and_eq_true, decide_eq_true_eq] at hvp
        obtain ⟨⟨⟨⟨h1, h2⟩, h3⟩, h4⟩, h5⟩ := hvp
        rcases hbad with hle | hname | hname | ⟨d, hd, hlen⟩ | hcat
        · exact absurd h3 (not_lt.mpr hle)
        · omega
        · omega
        · simp only [hd, decide_eq_true_eq] at h4
          omega
        · omega
    simp [create_product, hv]
  · intro hv
    have hv2 := hv
    unfold validCreate at hv2
    simp only [Bool.and_eq_true, decide_eq_true_eq] at hv2
    unfold create_product
    rw [hv]
    exact ⟨_, rfl, rfl, hv2.1.1.2⟩

/-- A valid creation payload and an invalid one (price -5), for the closed
instances below. -/
def sampleCreate : ProductCreate := { name := "Widget", price := 10 }

def badCreate : ProductCreate := { name := "Widget", price := -5 }

/-- Closed instance of `C6_create_validation`: creating `badCreate` on the
sample store is rejected with the store unchanged, and creating
`sampleCreate` returns a record with the input's strictly positive price. -/
theorem C6_create_validation_witness :
    (badCreate.price ≤ 0
      ∧ create_product store5 badCreate = (store5, .error ⟨422, validationDetail⟩))
    ∧ (validCreate sampleCreate = true
      ∧ ∃ resp, (create_product store5 sampleCreate).2 = .ok resp
          ∧ resp.price = sampleCreate.price ∧ 0 < resp.price) :=
  ⟨⟨by decide,
      (C6_create_validation store5 badCreate).1 (Or.inl (by decide))⟩,
    ⟨by decide,
      (C6_create_validation store5 sampleCreate).2 (by decide)⟩⟩

/-- C1 counterexample: updating product 1 of the sample store with the empty
patch succeeds and leaves every stored field unchanged — including
`updated_at`, which stays at its old value `some 5` instead of being set to
the current time (e.g. 6): the handler never writes the modification
timestamp (its result does not depend on any clock at all). -/
theorem C1_counterexample :
    (update_product store5 1 emptyPatch).2.toOption = some (toResponse row1)
    ∧ ((update_product store5 1 emptyPatch).1.rows.find?
        (fun r => r.id == 1)).map (fun r => r.updated_at) = some (some 5)
    ∧ ¬ (some 5 = some (6 : Nat)) := by decide

/-- C1 amended: for every existing product, Update with an empty patch
returns the record with every field unchanged — the modification timestamp
included — and more generally every successful Update applies exactly the
present patch fields and never modifies `updated_at`, `created_at` or the
identifier. -/
theorem C1_amended_update_frame (s : Store) (pid : Nat) (r : ProductRow)
    (hfind : findRow s pid = some r)
    (hids : (s.rows.map (fun row => row.id)).Nodup)
    (p : ProductUpdate) (hv : validUpdate p = true) :
    update_product s pid emptyPatch = (s, .ok (toResponse r))
    ∧ (update_product s pid p).2 = .ok (toResponse (applyPatch r p))
    ∧ (applyPatch r p).updated_at = r.updated_at
    ∧ (applyPatch r p).created_at = r.created_at
    ∧ (applyPatch r p).id = r.id := by
  have hfind2 : s.rows.find? (fun row => row.id == pid) = some r := hfind
  have hr_mem : r ∈ s.rows := List.mem_of_find?_eq_some hfind2
  have hr_id : r.id = pid := by
    have hb := List.find?_some (p := fun row => row.id == pid) (a := r) hfind2
    exact eq_of_beq hb
  have hmap : (s.rows.map fun row => if row.id == pid then r else row) =
      s.rows := by
    have hcongr : ∀ row ∈ s.rows,
        (if row.id == pid then r else row) = id row := by
      intro row hrow
      by_cases hb : (row.id == pid) = true
      · have heq : row = r :=
          List.inj_on_of_nodup_map hids hrow hr_mem
            (by rw [show row.id = pid from eq_of_beq hb, hr_id])
        rw [if_pos hb, heq]
        rfl
      · rw [if_neg hb]
        rfl
    rw [List.map_congr_left hcongr, List.map_id]
  have main : ∀ q : ProductUpdate, validUpdate q = true →
      update_product s pid q =
        ({ s with rows := s.rows.map fun row =>
            if row.id == pid then applyPatch r q else row },
          .ok (toResponse (applyPatch r q))) := by
    intro q hq
    unfold update_product
    rw [hq, if_pos rfl, hfind]
  refine ⟨?_, ?_, rfl, rfl, rfl⟩
  · rw [main emptyPatch rfl]
    simp only [show applyPatch r emptyPatch = r from rfl]
    rw [hmap]
  · rw [main p hv]

/-- Closed instance of `C1_amended_update_frame` on product 2 of the sample
store, with the patch that sets only the price to 99. -/
theorem C1_amended_update_frame_witness :
    findRow store5 2 = some row2
    ∧ (store5.rows.map (fun row => row.id)).Nodup
    ∧ validUpdate ⟨none, some 99, none, none, none⟩ = true
    ∧ (update_product store5 2 emptyPatch = (store5, .ok (toResponse row2))
      ∧ (update_product store5 2 ⟨none, some 99, none, none, none⟩).2 =
          .ok (toResponse (applyPatch row2 ⟨none, some 99, none, none, none⟩))
      ∧ (applyPatch row2 ⟨none, some 99, none, none, none⟩).updated_at =
          row2.updated_at
      ∧ (applyPatch row2 ⟨none, some 99, none, none, none⟩).created_at =
          row2.created_at
      ∧ (applyPatch row2 ⟨none, some 99, none, none, none⟩).id = row2.id) :=
  ⟨by decide, by decide, by decide,
    C1_amended_update_frame store5 2 row2 (by decide) (by decide)
      ⟨none, some 99, none, none, none⟩ (by decide)⟩

/-- C4 counterexample: creating the valid payload `sampleCreate` in an empty
store persists a row whose `created_at` and `updated_at` are unset (`none`),
not the current time (e.g. 0) — the handler never reads a clock — and the
returned `Product` representation carries no timestamp fields at all. -/
theorem C4_counterexample :
    (create_product ⟨[], 1⟩ sampleCreate).1.rows.map
        (fun r => (r.created_at, r.updated_at)) = [(none, none)]
    ∧ (create_product ⟨[], 1⟩ sampleCreate).2.toOption =
        some ⟨1, "Widget", 10, none, "General", true⟩
    ∧ ¬ ((none : Option Nat) = some 0) := by decide

/-- C4 amended: for every store satisfying the key invariant (all stored
identifiers below the AUTO_INCREMENT counter) and every payload passing
validation, Create assigns the fresh identifier — unique, not held by any
stored record — persists exactly one new row carrying the payload fields,
and returns the stored representation with the server-assigned identifier;
the two timestamp columns are left unset and are not part of the returned
representation. -/
theorem C4_amended_create (s : Store) (p : ProductCreate)
    (hwf : ∀ r ∈ s.rows, r.id < s.nextId) (hv : validCreate p = true) :
    ∃ row : ProductRow,
      create_product s p =
        ({ rows := s.rows ++ [row], nextId := s.nextId + 1 },
          .ok (toResponse row))
      ∧ row.id = s.nextId
      ∧ row.id ∉ s.rows.map (fun r => r.id)
      ∧ row.name = p.name ∧ row.price = p.price
      ∧ row.description = p.description ∧ row.category = p.category
      ∧ row.in_stock = p.in_stock
      ∧ row.created_at = none ∧ row.updated_at = none := by
  refine ⟨⟨s.nextId, p.name, p.price, p.description, p.category,
      p.in_stock, none, none⟩,
    ?_, rfl, ?_, rfl, rfl, rfl, rfl, rfl, rfl, rfl⟩
  · unfold create_product
    rw [hv, if_pos rfl]
  · intro hmem
    rw [List.mem_map] at hmem
    obtain ⟨r, hr, hid⟩ := hmem
    exact absurd hid (Nat.ne_of_lt (hwf r hr))

/-- Closed instance of `C4_amended_create`: creating `sampleCreate` in the
empty store (counter 1). -/
theorem C4_amended_create_witness :
    (∀ r ∈ (⟨[], 1⟩ : Store).rows, r.id < (⟨[], 1⟩ : Store).nextId)
    ∧ validCreate sampleCreate = true
    ∧ ∃ row : ProductRow,
        create_product ⟨[], 1⟩ sampleCreate =
          ({ rows := [] ++ [row], nextId := 2 }, .ok (toResponse row))
        ∧ row.id = 1
        ∧ row.id ∉ ([] : List ProductRow).map (fun r => r.id)
        ∧ row.name = sampleCreate.name ∧ row.price = sampleCreate.price
        ∧ row.description = sampleCreate.description
        ∧ row.category = sampleCreate.category
        ∧ row.in_stock = sampleCreate.in_stock
        ∧ row.created_at = none ∧ row.updated_at = none :=
  ⟨by simp, by decide, C4_amended_create ⟨[], 1⟩ sampleCreate
    (by simp) (by decide)⟩

/-- C3 counterexample: the proxy cannot cover all seven Catalog operations —
it registers only six actions (there is no health action), so no injective
assignment of operations to parameter-matching actions exists. -/
theorem C3_counterexample : ¬ specProxyCoversAllOps := by
  rintro ⟨f, hinj, -⟩
  have hcard := Fintype.card_le_of_injective f hinj
  simp only [Fintype.card_fin] at hcard
  have h7 : catalogOps.length = 7 := rfl
  have h6 : mcpTools.length = 6 := rfl
  rw [h7, h6] at hcard
  omega

/-- C3 amended: the proxy exposes exactly six named actions corresponding
one-to-one, in order, to the Catalog operations other than health, each
taking the same logical parameters as its operation — except that the list
action omits `skip` (it accepts only category, in_stock and limit). -/
theorem C3_amended_surface :
    catalogOps.length = 7 ∧ mcpTools.length = 6
    ∧ mcpTools.map (fun t => t.params) =
        (catalogOps.take 6).map
          (fun t => t.params.filter (fun q => q != "skip")) := by
  refine ⟨rfl, rfl, ?_⟩
  decide
